import Mathlib

set_option maxRecDepth 4000

namespace Erp

/-- Events of the server engine's process steps (src/backend/server/src/ticket.rs, enum Event). -/
inductive Event where
  | Initiate
  | Approve
  | Notify
  | NonBlockingTask
  | BlockingTask
  | Complete
deriving DecidableEq

/-- Modelled from the spec: the crate module process (process.rs is not under src/).
A Step carries its event, the prerequisite node indices, the successor node indices,
optional positional args (args[0] is the target username for Approve and Notify) and
optional callback descriptors. -/
structure Step where
  event : Event
  required : List Int
  next : List Int
  args : Option (List String)
  callbacks : Option (List String)
deriving DecidableEq

/-- Modelled from the spec: the crate module process. A process graph is the ordered
list of steps; the index is the node id. -/
structure Process where
  steps : List Step
deriving DecidableEq

/-- Modelled from the spec: the crate module db_types (db_types.rs is not under src/).
The ticket row; timestamps are modelled as natural-number instants and the free-form
state map as an association list. -/
structure Ticket where
  id : Int
  owner_id : String
  process_id : String
  log_id : String
  is_public : Bool
  created_at : Nat
  updated_at : Nat
  status : String
  complete : Int
  state : List (String × String)
deriving DecidableEq

/-- The unsigned 32-bit representative of an i32 value. -/
def toU32 (a : Int) : Nat := (a % (2 ^ 32 : Int)).toNat

/-- Reinterpret an unsigned 32-bit value as an i32 (two's complement). -/
def ofU32 (n : Nat) : Int := if n < 2 ^ 31 then (n : Int) else (n : Int) - 2 ^ 32

/-- Bitwise or of two i32 values, as Rust computes mask | bit on i32. -/
def orI32 (a b : Int) : Int := ofU32 (Nat.lor (toU32 a) (toU32 b))

/-- Rust 1i32 << node: a negative shift amount or a shift of 32 or more is a shift
overflow (modelled as none, the panic); node = 31 wraps into the sign bit. -/
def shlOne (node : Int) : Option Int :=
  if 0 ≤ node ∧ node < 32 then some (ofU32 (2 ^ node.toNat)) else none

/-- Modelled from the spec: utils::check_required_complete (utils.rs is not under src/):
true iff every index in the required set has its bit set in the mask. -/
def check_required_complete (mask : Int) (required : List Int) : Bool :=
  required.all (fun k => Nat.testBit (toU32 mask) k.toNat)

/-- Modelled from the spec, section 4.1 taken literally: all_n_set(mask, n) is true iff
bits 0..n-1 are all set. -/
def all_n_set_literal (mask : Int) (n : Int) : Bool :=
  (List.range n.toNat).all (fun i => Nat.testBit (toU32 mask) i)

/-- Modelled from the spec: utils::check_n_complete (utils.rs is not under src/). The
literal section 4.1 reading (bits 0..n-1 of the mask, n = number of steps) contradicts
the repository's own tests: the terminal Complete node's bit is never set by the server
engine, yet check_approve_user_request_works demands that check_n_complete(3, 3) hold.
The behaviour pinned by those tests and the section 8 scenarios is: every bit below
n-1 is set, i.e. every node except the terminal Complete node is done. -/
def check_n_complete (mask : Int) (n : Int) : Bool :=
  (List.range (n.toNat - 1)).all (fun i => Nat.testBit (toU32 mask) i)

inductive TicketStatus where
  | Open
  | Closed
  | Rejected
deriving DecidableEq

inductive NewUserTicketType where
  | ApproveRequest
  | Notify
  | Completion
deriving DecidableEq

/-- A UserAction emitted by the engine (struct NewUserTicket in ticket.rs). -/
structure NewUserTicket where
  type_ : NewUserTicketType
  ticket_id : Int
  node : Int
  username : Option String
deriving DecidableEq

structure SingleExecState where
  status : TicketStatus
  new_ticket : Option NewUserTicket
  completable_steps : List Int
deriving DecidableEq

inductive ExecuteErr where
  | InvalidTicket
  | FailedToExecute
  | InvalidEvent
  | FailedToReadProcessData
  | FailedToLog
  | FailedToNotify
  | FailedToExecuteCallback
deriving DecidableEq

/-- One spawned send_task call: (ticket id, node, payload, callbacks). -/
structure Dispatch where
  ticket_id : Int
  node : Int
  data : Option (List (String × String))
  callbacks : List String
deriving DecidableEq

/-- Modelled from the spec: db_types Ticket::update_time; updated_at advances on every
mutation, with the current instant passed explicitly. -/
def Ticket.update_time (t : Ticket) (now : Nat) : Ticket := { t with updated_at := now }

/-- ticket.complete |= b on the i32 mask. -/
def Ticket.set_bit (t : Ticket) (b : Int) : Ticket := { t with complete := orI32 t.complete b }

/-- Modelled from the spec: process::Step::is_not_blocking_task (BlockingTask arrivals
come from the callback fabric). -/
def Step.is_not_blocking_task (s : Step) : Bool := decide (s.event ≠ Event.BlockingTask)

/-- Modelled from the spec: process::Step::is_not_approve. -/
def Step.is_not_approve (s : Step) : Bool := decide (s.event ≠ Event.Approve)

/-- Rust steps[node as usize]: none models the index-out-of-bounds panic (a negative
i32 cast to usize lands far out of range). -/
def getStep (p : Process) (node : Int) : Option Step :=
  if 0 ≤ node then p.steps[node.toNat]? else none

/-- Successor enumeration common to both firing paths of the server engine: a Complete
successor is gated by check_n_complete over the whole step count, any other successor
by check_required_complete of its required set; none models the indexing panic on an
invalid successor index. -/
def completableOf (checkN : Int → Int → Bool) (process : Process) (mask : Int) :
    List Int → Option (List Int)
  | [] => some []
  | step :: rest =>
    match getStep process step with
    | none => none
    | some next_job =>
      match completableOf checkN process mask rest with
      | none => none
      | some l =>
        if next_job.event = Event.Complete then
          if checkN mask (process.steps.length : Int) then some (step :: l) else some l
        else if check_required_complete mask next_job.required then some (step :: l)
        else some l

/-- The send_task calls spawned near the top of execute_user_request, before the event
branch: nothing for a BlockingTask (its callbacks already ran), otherwise one call
whenever the step's callback list is nonempty. -/
def user_dispatch (job : Step) (ticket_id : Int) (node : Int)
    (data : Option (List (String × String))) : List Dispatch :=
  if job.is_not_blocking_task then
    match job.callbacks with
    | none => []
    | some cbs => if cbs.isEmpty then [] else [⟨ticket_id, node, data, cbs⟩]
  else []

/-- The event branch of execute_user_request: sets the node's bit and the update time
for Initiate, Approve and BlockingTask; rejects Notify, NonBlockingTask and Complete
with InvalidTicket (their rejection log line reads args[0] through unwrap, so a missing
or empty args list panics: none). Returns the TicketStatus the branch stores in the
result (Closed for an Initiate without successors). -/
def user_event_step (job : Step) (ticket : Ticket) (current_node : Int) (now : Nat) :
    Option (Except ExecuteErr (Ticket × TicketStatus)) :=
  match job.event with
  | Event.Initiate =>
    match shlOne current_node with
    | none => none
    | some b =>
      some (Except.ok ((ticket.set_bit b).update_time now,
        if job.next.isEmpty then TicketStatus.Closed else TicketStatus.Open))
  | Event.Approve =>
    match job.args with
    | none => none
    | some [] => none
    | some (_ :: _) =>
      match shlOne current_node with
      | none => none
      | some b => some (Except.ok ((ticket.set_bit b).update_time now, TicketStatus.Open))
  | Event.Notify =>
    match job.args with
    | none => none
    | some [] => none
    | some (_ :: _) => some (Except.error ExecuteErr.InvalidTicket)
  | Event.Complete =>
    match job.args with
    | none => none
    | some [] => none
    | some (_ :: _) => some (Except.error ExecuteErr.InvalidTicket)
  | Event.NonBlockingTask =>
    match job.args with
    | none => none
    | some [] => none
    | some (_ :: _) => some (Except.error ExecuteErr.InvalidTicket)
  | Event.BlockingTask =>
    match shlOne current_node with
    | none => none
    | some b => some (Except.ok ((ticket.set_bit b).update_time now, TicketStatus.Open))

deriving instance DecidableEq for Except

/-- Output of one single-node firing: the ticket after its in-place mutations, the
send_task calls spawned during the firing, and the Ok/Err outcome. -/
structure ExecOut where
  ticket : Ticket
  dispatched : List Dispatch
  result : Except ExecuteErr SingleExecState
deriving DecidableEq

/-- execute_user_request of src/backend/server/src/ticket.rs: reads the process,
indexes the originating step (panic on an invalid index), spawns the step's callbacks
unless it is a BlockingTask, runs the event branch, then enumerates the completable
successors of the (possibly updated) mask. -/
def execute_user_request (checkN : Int → Int → Bool) (catalog : String → Option Process)
    (ticket : Ticket) (current_node : Int) (data : Option (List (String × String)))
    (now : Nat) : Option ExecOut :=
  match catalog ticket.process_id with
  | none => some ⟨ticket, [], Except.error ExecuteErr.FailedToReadProcessData⟩
  | some process_data =>
    match getStep process_data current_node with
    | none => none
    | some current_job =>
      let dispatched := user_dispatch current_job ticket.id current_node data
      match user_event_step current_job ticket current_node now with
      | none => none
      | some (Except.error e) => some ⟨ticket, dispatched, Except.error e⟩
      | some (Except.ok (t, rs)) =>
        match completableOf checkN process_data t.complete current_job.next with
        | none => none
        | some l => some ⟨t, dispatched, Except.ok ⟨rs, none, l⟩⟩

/-- execute_completable of src/backend/server/src/ticket.rs: the auto path for a node
whose prerequisites became satisfied. Callbacks are spawned for every non-Approve step;
Approve emits an ApproveRequest without setting the bit, Notify sets the bit and emits
a Notify action, Complete emits the Completion and returns early, NonBlockingTask sets
the bit, BlockingTask only refreshes the update time. -/
def execute_completable (checkN : Int → Int → Bool) (ticket : Ticket) (current_node : Int)
    (process : Process) (now : Nat) : Option ExecOut :=
  match getStep process current_node with
  | none => none
  | some current_job =>
    let dispatched :=
      if current_job.is_not_approve then
        match current_job.callbacks with
        | none => []
        | some cbs => if cbs.isEmpty then [] else [⟨ticket.id, current_node, none, cbs⟩]
      else []
    match current_job.event with
    | Event.Initiate => some ⟨ticket, dispatched, Except.error ExecuteErr.InvalidEvent⟩
    | Event.Approve =>
      match current_job.args with
      | none => none
      | some [] => none
      | some (u :: _) =>
        match completableOf checkN process ticket.complete current_job.next with
        | none => none
        | some l =>
          some ⟨ticket, dispatched, Except.ok
            ⟨TicketStatus.Open,
             some ⟨NewUserTicketType.ApproveRequest, ticket.id, current_node, some u⟩, l⟩⟩
    | Event.Notify =>
      match current_job.args with
      | none => none
      | some [] => none
      | some (u :: _) =>
        match shlOne current_node with
        | none => none
        | some b =>
          let t := ticket.set_bit b
          match completableOf checkN process t.complete current_job.next with
          | none => none
          | some l =>
            some ⟨t, dispatched, Except.ok
              ⟨TicketStatus.Open,
               some ⟨NewUserTicketType.Notify, ticket.id, current_node, some u⟩, l⟩⟩
    | Event.Complete =>
      some ⟨ticket.update_time now, dispatched, Except.ok
        ⟨TicketStatus.Open,
         some ⟨NewUserTicketType.Completion, ticket.id, current_node, none⟩, []⟩⟩
    | Event.NonBlockingTask =>
      match shlOne current_node with
      | none => none
      | some b =>
        let t := (ticket.update_time now).set_bit b
        match completableOf checkN process t.complete current_job.next with
        | none => none
        | some l => some ⟨t, dispatched, Except.ok ⟨TicketStatus.Open, none, l⟩⟩
    | Event.BlockingTask =>
      let t := ticket.update_time now
      match completableOf checkN process t.complete current_job.next with
      | none => none
      | some l => some ⟨t, dispatched, Except.ok ⟨TicketStatus.Open, none, l⟩⟩

/-- Output of a whole advancement: final ticket, emitted UserActions in order, the
send_task calls spawned along the way, and the error that aborted it, if any. -/
structure EngineOut where
  ticket : Ticket
  actions : List NewUserTicket
  dispatched : List Dispatch
  err : Option ExecuteErr
deriving DecidableEq

/-- The FIFO drain loop of update_internal; fuel bounds the number of iterations of
the source's unbounded while loop (none = the loop did not finish within fuel). -/
def drain (checkN : Int → Int → Bool) (process : Process) (now : Nat) :
    Nat → Ticket → List Int → List NewUserTicket → List Dispatch → Option EngineOut
  | _, t, [], acc, disp => some ⟨t, acc, disp, none⟩
  | 0, _, _ :: _, _, _ => none
  | Nat.succ fuel, t, node :: queue, acc, disp =>
    match execute_completable checkN t node process now with
    | none => none
    | some out =>
      match out.result with
      | Except.error e => some ⟨out.ticket, acc, disp ++ out.dispatched, some e⟩
      | Except.ok st =>
        drain checkN process now fuel out.ticket (queue ++ st.completable_steps)
          (acc ++ (match st.new_ticket with | some nt => [nt] | none => []))
          (disp ++ out.dispatched)

/-- update_internal of src/backend/server/src/ticket.rs: fire the originating node from
the user request, then drain the queue of auto-completable nodes, collecting every
emitted UserAction in order. -/
def update_internal (checkN : Int → Int → Bool) (catalog : String → Option Process)
    (fuel : Nat) (ticket : Ticket) (node : Int) (data : Option (List (String × String)))
    (now : Nat) : Option EngineOut :=
  match catalog ticket.process_id with
  | none => some ⟨ticket, [], [], some ExecuteErr.FailedToReadProcessData⟩
  | some process_data =>
    match execute_user_request checkN catalog ticket node data now with
    | none => none
    | some out =>
      match out.result with
      | Except.error e => some ⟨out.ticket, [], out.dispatched, some e⟩
      | Except.ok st =>
        drain checkN process_data now fuel out.ticket st.completable_steps [] out.dispatched

inductive HStatus where
  | Accepted
  | Created
  | Forbidden
  | InternalServerError
deriving DecidableEq

/-- A user_active_tickets row. -/
structure Uat where
  userid : String
  ticketid : Int
  active : Bool
  node_number : Int
  type_ : String
deriving DecidableEq

/-- A notifications row; the userid comes from a subquery on the username and may be
null when no such user exists. -/
structure Notification where
  userid : Option String
  message : String
deriving DecidableEq

/-- The body of the PUT /ticket request (struct UpdateTicket). -/
structure UpdateTicketReq where
  ticket_id : Int
  user_id : String
  status : Bool
  node : Int
  data : Option (List (String × String))
deriving DecidableEq

/-- The rows touched by one update transaction. -/
structure DbState where
  ticket : Ticket
  uats : List Uat
  notifications : List Notification
deriving DecidableEq

/-- serde_json Map::append: every key of the update payload is inserted into the state,
overwriting an existing entry with the same key. -/
def mapAppend (a b : List (String × String)) : List (String × String) :=
  a.filter (fun p => b.all (fun q => q.1 != p.1)) ++ b

/-- The state merge performed by update_ticket before calling update_internal. -/
def merged_ticket (t : Ticket) (data : Option (List (String × String))) : Ticket :=
  match data with
  | some d => { t with state := mapAppend t.state d }
  | none => t

/-- The for-loop of update_ticket over the UserActions returned by update_internal:
ApproveRequest resolves the target username to a user id (db miss = 500) and inserts an
active user_active_tickets row; Notify looks up the ticket owner's username (miss = 500)
and inserts a notification row; Completion marks every row of the ticket inactive and
closes the ticket. A missing username on an ApproveRequest or Notify action panics
(unwrap in the source): none. -/
def process_actions (usersByName usersById : String → Option String) (ticket_id : Int) :
    DbState → List NewUserTicket → Option (Except HStatus DbState)
  | db, [] => some (Except.ok db)
  | db, nt :: rest =>
    match nt.type_ with
    | NewUserTicketType.ApproveRequest =>
      match nt.username with
      | none => none
      | some uname =>
        match usersByName uname with
        | none => some (Except.error HStatus.InternalServerError)
        | some uid =>
          process_actions usersByName usersById ticket_id
            { db with uats := db.uats ++ [⟨uid, nt.ticket_id, true, nt.node, "approve"⟩] } rest
    | NewUserTicketType.Notify =>
      match usersById db.ticket.owner_id with
      | none => some (Except.error HStatus.InternalServerError)
      | some _owner_name =>
        match nt.username with
        | none => none
        | some uname =>
          process_actions usersByName usersById ticket_id
            { db with notifications := db.notifications ++
                [⟨usersByName uname,
                  "Ticket created by " ++ db.ticket.owner_id ++ ". Process Id: "
                    ++ db.ticket.process_id⟩] } rest
    | NewUserTicketType.Completion =>
      process_actions usersByName usersById ticket_id
        { db with
            ticket := { db.ticket with status := "closed" },
            uats := db.uats.map (fun r =>
              if r.ticketid = ticket_id then { r with active := false } else r) } rest

/-- update_ticket of src/backend/server/src/ticket.rs, over an abstracted store: load
the ticket (given), refuse a closed ticket with Forbidden, deactivate the caller's
row, then either record a rejection (no engine advancement) or merge the payload into
the state, run update_internal, and materialize its actions. -/
def update_ticket (checkN : Int → Int → Bool) (catalog : String → Option Process)
    (fuel : Nat) (usersByName usersById : String → Option String)
    (ticket : Ticket) (uats : List Uat) (notifs : List Notification)
    (payload : UpdateTicketReq) (now : Nat) : Option (Except HStatus DbState) :=
  if ticket.status = "closed" then some (Except.error HStatus.Forbidden)
  else
    let uats1 := uats.map (fun r =>
      if r.ticketid = payload.ticket_id ∧ r.userid = payload.user_id then
        { r with active := false } else r)
    if payload.status = false then
      some (Except.ok ⟨{ ticket with status := "rejected" },
        uats1.map (fun r =>
          if r.ticketid = payload.ticket_id then { r with active := false } else r),
        notifs⟩)
    else
      match update_internal checkN catalog fuel (merged_ticket ticket payload.data)
          payload.node payload.data now with
      | none => none
      | some out =>
        match out.err with
        | some _ => some (Except.error HStatus.InternalServerError)
        | none =>
          process_actions usersByName usersById payload.ticket_id
            ⟨out.ticket, uats1, notifs⟩ out.actions

/-- Modelled from the spec: the older crate's process jobs (its process.rs is not under
src/); events are strings resolved through get_event_map. -/
structure OldStep where
  event : String
  required : List Int
  next : List Int
  args : Option (List String)
deriving DecidableEq

structure OldProcess where
  jobs : List OldStep
deriving DecidableEq

/-- The string-to-event map of src/backend/src/ticket.rs (get_event_map); the older
engine only knows four events, and an unknown string makes the map lookup unwrap
panic: none. -/
def get_event_map (s : String) : Option Event :=
  if s = "initiate" then some Event.Initiate
  else if s = "approve" then some Event.Approve
  else if s = "notify" then some Event.Notify
  else if s = "complete" then some Event.Complete
  else none

/-- Rust jobs[node as usize] in the older engine. -/
def getOldStep (p : OldProcess) (node : Int) : Option OldStep :=
  if 0 ≤ node then p.jobs[node.toNat]? else none

/-- Successor enumeration of the older engine: every successor, Complete included, is
gated only by check_required_complete of its required set. -/
def old_completableOf (process : OldProcess) (mask : Int) : List Int → Option (List Int)
  | [] => some []
  | step :: rest =>
    match getOldStep process step with
    | none => none
    | some next_job =>
      match old_completableOf process mask rest with
      | none => none
      | some l =>
        if check_required_complete mask next_job.required then some (step :: l) else some l

structure OldExecOut where
  ticket : Ticket
  result : Except ExecuteErr SingleExecState
deriving DecidableEq

/-- execute_user_request of src/backend/src/ticket.rs. The Notify branch sets the bit
and then hits todo!(), a panic: none. Complete rejects with InvalidTicket. -/
def old_execute_user_request (catalog : String → Option OldProcess) (ticket : Ticket)
    (current_node : Int) (now : Nat) : Option OldExecOut :=
  match catalog ticket.process_id with
  | none => some ⟨ticket, Except.error ExecuteErr.FailedToReadProcessData⟩
  | some process_data =>
    match getOldStep process_data current_node with
    | none => none
    | some current_job =>
      match get_event_map current_job.event with
      | none => none
      | some Event.Initiate =>
        match shlOne current_node with
        | none => none
        | some b =>
          let t := (ticket.set_bit b).update_time now
          match old_completableOf process_data t.complete current_job.next with
          | none => none
          | some l =>
            some ⟨t, Except.ok
              ⟨if current_job.next.length = 0 then TicketStatus.Closed else TicketStatus.Open,
               none, l⟩⟩
      | some Event.Notify => none
      | some Event.Approve =>
        match shlOne current_node with
        | none => none
        | some b =>
          let t := (ticket.set_bit b).update_time now
          match old_completableOf process_data t.complete current_job.next with
          | none => none
          | some l => some ⟨t, Except.ok ⟨TicketStatus.Open, none, l⟩⟩
      | some Event.Complete => some ⟨ticket, Except.error ExecuteErr.InvalidTicket⟩
      | some _ => none

/-- execute_completable of src/backend/src/ticket.rs: Approve and Notify emit their
actions without touching the mask; Complete sets its own bit, refreshes the time and
emits the Completion, then still enumerates its successors. -/
def old_execute_completable (ticket : Ticket) (current_node : Int) (process : OldProcess)
    (now : Nat) : Option OldExecOut :=
  match getOldStep process current_node with
  | none => none
  | some current_job =>
    match get_event_map current_job.event with
    | none => none
    | some Event.Initiate => some ⟨ticket, Except.error ExecuteErr.InvalidEvent⟩
    | some Event.Approve =>
      match current_job.args with
      | none => none
      | some [] => none
      | some (u :: _) =>
        match old_completableOf process ticket.complete current_job.next with
        | none => none
        | some l =>
          some ⟨ticket, Except.ok
            ⟨TicketStatus.Open,
             some ⟨NewUserTicketType.ApproveRequest, ticket.id, current_node, some u⟩, l⟩⟩
    | some Event.Notify =>
      match current_job.args with
      | none => none
      | some [] => none
      | some (u :: _) =>
        match old_completableOf process ticket.complete current_job.next with
        | none => none
        | some l =>
          some ⟨ticket, Except.ok
            ⟨TicketStatus.Open,
             some ⟨NewUserTicketType.Notify, ticket.id, current_node, some u⟩, l⟩⟩
    | some Event.Complete =>
      match shlOne current_node with
      | none => none
      | some b =>
        let t := (ticket.set_bit b).update_time now
        match old_completableOf process t.complete current_job.next with
        | none => none
        | some l =>
          some ⟨t, Except.ok
            ⟨TicketStatus.Open,
             some ⟨NewUserTicketType.Completion, ticket.id, current_node, none⟩, l⟩⟩
    | some _ => none

structure OldEngineOut where
  ticket : Ticket
  actions : List NewUserTicket
  err : Option ExecuteErr
deriving DecidableEq

/-- The FIFO drain loop of the older update_internal. -/
def old_drain (process : OldProcess) (now : Nat) :
    Nat → Ticket → List Int → List NewUserTicket → Option OldEngineOut
  | _, t, [], acc => some ⟨t, acc, none⟩
  | 0, _, _ :: _, _ => none
  | Nat.succ fuel, t, node :: queue, acc =>
    match old_execute_completable t node process now with
    | none => none
    | some out =>
      match out.result with
      | Except.error e => some ⟨out.ticket, acc, some e⟩
      | Except.ok st =>
        old_drain process now fuel out.ticket (queue ++ st.completable_steps)
          (acc ++ (match st.new_ticket with | some nt => [nt] | none => []))

/-- update_internal of src/backend/src/ticket.rs. -/
def old_update_internal (catalog : String → Option OldProcess) (fuel : Nat)
    (ticket : Ticket) (node : Int) (now : Nat) : Option OldEngineOut :=
  match catalog ticket.process_id with
  | none => some ⟨ticket, [], some ExecuteErr.FailedToReadProcessData⟩
  | some process_data =>
    match old_execute_user_request catalog ticket node now with
    | none => none
    | some out =>
      match out.result with
      | Except.error e => some ⟨out.ticket, [], some e⟩
      | Except.ok st => old_drain process_data now fuel out.ticket st.completable_steps []

/-- Modelled from the spec: the process definition for initiate_test (the process data
files are not under src/): node 0 Initiate whose successor node 1 is the terminal
Complete. -/
def initiate_test : Process :=
  ⟨[⟨Event.Initiate, [], [1], none, none⟩,
    ⟨Event.Complete, [0], [], none, none⟩]⟩

/-- Modelled from the spec: approve_test: node 0 Initiate, node 1 Approve targeting
erp_admin, node 2 terminal Complete. -/
def approve_test : Process :=
  ⟨[⟨Event.Initiate, [], [1], none, none⟩,
    ⟨Event.Approve, [0], [2], some ["erp_admin"], none⟩,
    ⟨Event.Complete, [0, 1], [], none, none⟩]⟩

/-- A process satisfying every section 3 graph invariant on which the ordering
invariant of section 4.3 fails: node 0 Initiate with successors 1 and 2; node 1 is a
Notify; node 2 is a NonBlockingTask whose next list names the terminal Complete node 3
before naming node 1 again. -/
def reentry_test : Process :=
  ⟨[⟨Event.Initiate, [], [1, 2], none, none⟩,
    ⟨Event.Notify, [0], [], some ["erp_admin"], none⟩,
    ⟨Event.NonBlockingTask, [0], [3, 1], none, none⟩,
    ⟨Event.Complete, [], [], none, none⟩]⟩

/-- A 33-step process exercising node indices at and beyond the width of the i32
completion mask. -/
def wide_test : Process :=
  ⟨List.replicate 33 ⟨Event.Approve, [], [], some ["erp_admin"], none⟩⟩

/-- A two-node process whose node 1 is a Notify step carrying one callback, for the
dispatch-on-rejection run. -/
def notify_cb_test : Process :=
  ⟨[⟨Event.Initiate, [], [1], none, none⟩,
    ⟨Event.Notify, [0], [], some ["erp_admin"], some ["cb0"]⟩]⟩

/-- A two-node process whose node 1 is a BlockingTask carrying one callback, for the
no-dispatch-on-blocking-arrival run. -/
def blocking_test : Process :=
  ⟨[⟨Event.Initiate, [], [1], none, none⟩,
    ⟨Event.BlockingTask, [0], [], none, some ["cbB"]⟩]⟩

def testCatalog (s : String) : Option Process :=
  if s = "initiate_test" then some initiate_test
  else if s = "approve_test" then some approve_test
  else if s = "reentry_test" then some reentry_test
  else if s = "wide_test" then some wide_test
  else if s = "notify_cb_test" then some notify_cb_test
  else if s = "blocking_test" then some blocking_test
  else none

/-- Modelled from the spec: the older engine's view of the shared test processes
(string events; a Complete node is gated by its required list there). -/
def old_initiate_test : OldProcess :=
  ⟨[⟨"initiate", [], [1], none⟩,
    ⟨"complete", [0], [], none⟩]⟩

def old_approve_test : OldProcess :=
  ⟨[⟨"initiate", [], [1], none⟩,
    ⟨"approve", [0], [2], some ["erp_admin"]⟩,
    ⟨"complete", [0, 1], [], none⟩]⟩

def oldTestCatalog (s : String) : Option OldProcess :=
  if s = "initiate_test" then some old_initiate_test
  else if s = "approve_test" then some old_approve_test
  else none

/-- A ticket row with the given process id, completion mask and status. -/
def mkTicket (pid : String) (mask : Int) (st : String) : Ticket :=
  ⟨0, "owner", pid, "log0", false, 0, 0, st, mask, []⟩

theorem set_bit_status (t : Ticket) (b : Int) : (t.set_bit b).status = t.status := rfl

theorem update_time_status (t : Ticket) (n : Nat) : (t.update_time n).status = t.status := rfl

theorem merged_ticket_status (t : Ticket) (d : Option (List (String × String))) :
    (merged_ticket t d).status = t.status := by
  cases d <;> rfl

/-- The event branch of execute_user_request never touches the status column. -/
theorem user_event_step_status (job : Step) (t : Ticket) (node : Int) (now : Nat)
    (t' : Ticket) (rs : TicketStatus)
    (h : user_event_step job t node now = some (Except.ok (t', rs))) :
    t'.status = t.status := by
  unfold user_event_step at h
  repeat' split at h
  all_goals first
    | exact Option.noConfusion h
    | (injection h with h; exact Except.noConfusion h)
    | (injection h with h; injection h with h; injection h with h _; subst h; rfl)

/-- execute_user_request never touches the status column. -/
theorem execute_user_request_status (checkN : Int → Int → Bool)
    (catalog : String → Option Process) (t : Ticket) (node : Int)
    (data : Option (List (String × String))) (now : Nat) (out : ExecOut)
    (h : execute_user_request checkN catalog t node data now = some out) :
    out.ticket.status = t.status := by
  simp only [execute_user_request] at h
  repeat' split at h
  all_goals first
    | exact Option.noConfusion h
    | (injection h with h; subst h; rfl)
    | (injection h with h; subst h;
       exact user_event_step_status _ _ _ _ _ _ (by assumption))

/-- execute_completable never touches the status column. -/
theorem execute_completable_status (checkN : Int → Int → Bool) (t : Ticket) (node : Int)
    (p : Process) (now : Nat) (out : ExecOut)
    (h : execute_completable checkN t node p now = some out) :
    out.ticket.status = t.status := by
  simp only [execute_completable] at h
  repeat' split at h
  all_goals first
    | exact Option.noConfusion h
    | (injection h with h; subst h; rfl)

/-- The drain loop never touches the status column. -/
theorem drain_status (checkN : Int → Int → Bool) (p : Process) (now : Nat) :
    ∀ fuel t queue acc disp out,
      drain checkN p now fuel t queue acc disp = some out →
      out.ticket.status = t.status := by
  intro fuel
  induction fuel with
  | zero =>
    intro t queue acc disp out h
    cases queue with
    | nil => injection h with h; subst h; rfl
    | cons a l => exact Option.noConfusion h
  | succ n ih =>
    intro t queue acc disp out h
    cases queue with
    | nil => injection h with h; subst h; rfl
    | cons a l =>
      unfold drain at h
      split at h
      · exact Option.noConfusion h
      · rename_i o ho
        split at h
        · injection h with h; subst h
          exact execute_completable_status _ _ _ _ _ _ ho
        · have h1 := ih _ _ _ _ _ h
          rw [h1, execute_completable_status _ _ _ _ _ _ ho]

/-- update_internal never touches the status column. -/
theorem update_internal_status (checkN : Int → Int → Bool)
    (catalog : String → Option Process) (fuel : Nat) (t : Ticket) (node : Int)
    (data : Option (List (String × String))) (now : Nat) (out : EngineOut)
    (h : update_internal checkN catalog fuel t node data now = some out) :
    out.ticket.status = t.status := by
  unfold update_internal at h
  split at h
  · injection h with h; subst h; rfl
  · split at h
    · exact Option.noConfusion h
    · rename_i o ho
      split at h
      · injection h with h; subst h
        exact execute_user_request_status _ _ _ _ _ _ _ ho
      · have h1 := drain_status _ _ _ _ _ _ _ _ _ h
        rw [h1, execute_user_request_status _ _ _ _ _ _ _ ho]

/-- The action-materialization loop of update_ticket can only close the ticket. -/
theorem process_actions_status (un ui : String → Option String) (tid : Int) :
    ∀ l db db₂, process_actions un ui tid db l = some (Except.ok db₂) →
      db₂.ticket.status = db.ticket.status ∨ db₂.ticket.status = "closed" := by
  intro l
  induction l with
  | nil =>
    intro db db₂ h
    injection h with h; injection h with h; subst h; exact Or.inl rfl
  | cons nt rest ih =>
    intro db db₂ h
    unfold process_actions at h
    split at h
    · repeat' split at h
      all_goals first
        | exact Option.noConfusion h
        | (injection h with h; exact Except.noConfusion h)
        | (have h2 := ih _ _ h; exact h2)
    · repeat' split at h
      all_goals first
        | exact Option.noConfusion h
        | (injection h with h; exact Except.noConfusion h)
        | (have h2 := ih _ _ h; exact h2)
    · rcases ih _ _ h with h1 | h1
      · exact Or.inr h1
      · exact Or.inr h1

/-- Claim C1: the code violates its own comment ("this ticket is always the last in the
new_ticket_queue") and the spec's ordering invariant. On the reentry_test graph, which
satisfies every section 3 graph invariant, one advancement from node 0 emits a Notify
action after the Completion: the returned kinds are [Notify, Completion, Notify]. -/
theorem C1_code_eval :
    (update_internal check_n_complete testCatalog 10 (mkTicket "reentry_test" 0 "open")
        0 none 1).map (fun o => (o.actions.map NewUserTicket.type_, o.err))
      = some ([NewUserTicketType.Notify, NewUserTicketType.Completion,
               NewUserTicketType.Notify], none) := by
  decide

/-- Claim C2, counterexample: with all_n_set read literally as the spec defines it
(bits 0..|steps|-1 all set), the initiate_test advancement from node 0 ends with mask 1
but an empty result list — no Completion UserAction is emitted, contradicting the
claimed "exactly one UserAction, of kind Completion". -/
theorem C2_counterexample :
    (update_internal all_n_set_literal testCatalog 10 (mkTicket "initiate_test" 0 "open")
        0 none 1).map (fun o => (o.actions.length, o.ticket.complete, o.err))
      = some (0, 1, none) := by
  decide

/-- Claim C2, amended: with the Complete gate requiring bits 0..|steps|-2 (every node
except the terminal Complete node, whose own bit is never set — the reading pinned by
the repository's tests), the initiate_test advancement from node 0 yields final mask 1
and exactly one UserAction, of kind Completion. -/
theorem C2_amended_thm :
    (update_internal check_n_complete testCatalog 10 (mkTicket "initiate_test" 0 "open")
        0 none 1).map (fun o => (o.actions.map NewUserTicket.type_, o.ticket.complete, o.err))
      = some ([NewUserTicketType.Completion], 1, none) := by
  decide

/-- Claim C6, counterexample: a user request at the Notify node of notify_cb_test is
rejected with InvalidTicket, yet its callback has already been dispatched — dispatch is
not conditioned on the event branch accepting the request. -/
theorem C6_counterexample :
    execute_user_request check_n_complete testCatalog (mkTicket "notify_cb_test" 0 "open")
        1 none 3
      = some ⟨mkTicket "notify_cb_test" 0 "open", [⟨0, 1, none, ["cb0"]⟩],
              Except.error ExecuteErr.InvalidTicket⟩ := by
  decide

/-- Claim C4, counterexample: an update whose originating node is the Notify step of
notify_cb_test (a trigger mismatch, engine error InvalidTicket) is answered with
HTTP 500 (InternalServerError), not the claimed 403 (Forbidden). -/
theorem C4_counterexample :
    update_ticket check_n_complete testCatalog 10 (fun _ => some "uid0")
        (fun _ => some "owner") (mkTicket "notify_cb_test" 1 "open") [] []
        ⟨0, "user0", true, 1, none⟩ 1
      = some (Except.error HStatus.InternalServerError) := by
  decide

/-- Claim C3, counterexample: a ticket whose status is rejected is not guarded; an
accepted update at node 0 of initiate_test advances the engine, emits a Completion and
moves the ticket's status from rejected to closed. -/
theorem C3_counterexample :
    (update_ticket check_n_complete testCatalog 10 (fun _ => some "uid0")
        (fun _ => some "owner") (mkTicket "initiate_test" 0 "rejected") [] []
        ⟨0, "user0", true, 0, none⟩ 1).map
      (fun r => match r with
        | Except.ok db => some db.ticket.status
        | Except.error _ => none)
      = some (some "closed") := by
  decide

/-- Claim C5, counterexample: an update with accepted = false on a closed ticket does
not set the status to rejected — the closed-ticket guard answers Forbidden first. -/
theorem C5_counterexample :
    update_ticket check_n_complete testCatalog 10 (fun _ => some "uid0")
        (fun _ => some "owner") (mkTicket "initiate_test" 1 "closed")
        [⟨"user0", 0, true, 0, "own"⟩] [] ⟨0, "user0", false, 0, none⟩ 1
      = some (Except.error HStatus.Forbidden) := by
  decide

/-- Claim C9, counterexample: on initiate_test, fired at node 0 from mask 0, both
engines emit one Completion, but the final completion masks differ: the older engine
sets the Complete node's bit (mask 3) while the server engine leaves it clear (mask 1). -/
theorem C9_counterexample :
    (old_update_internal oldTestCatalog 10 (mkTicket "initiate_test" 0 "open") 0 1).map
        (fun o => o.ticket.complete) = some 3 ∧
    (update_internal check_n_complete testCatalog 10 (mkTicket "initiate_test" 0 "open")
        0 none 1).map (fun o => o.ticket.complete) = some 1 ∧
    (3 : Int) ≠ 1 := by
  refine ⟨by decide, by decide, by decide⟩

/-- Claim C9, amended: on the shared test scenarios the two engines agree on the
sequence of UserAction kinds, and the final masks agree except at a fired Complete
node's bit, which only the older engine sets (initiate_test: old 3 = 1 or bit 1;
approve_test approval: old 7 = 3 or bit 2; approve_test staging: both 1). -/
theorem C9_amended_thm :
    ((old_update_internal oldTestCatalog 10 (mkTicket "initiate_test" 0 "open") 0 1).map
        (fun o => o.actions.map NewUserTicket.type_)
      = (update_internal check_n_complete testCatalog 10 (mkTicket "initiate_test" 0 "open")
          0 none 1).map (fun o => o.actions.map NewUserTicket.type_)) ∧
    ((old_update_internal oldTestCatalog 10 (mkTicket "approve_test" 1 "open") 1 1).map
        (fun o => o.actions.map NewUserTicket.type_)
      = (update_internal check_n_complete testCatalog 10 (mkTicket "approve_test" 1 "open")
          1 none 1).map (fun o => o.actions.map NewUserTicket.type_)) ∧
    ((old_update_internal oldTestCatalog 10 (mkTicket "approve_test" 0 "open") 0 1).map
        (fun o => o.actions.map NewUserTicket.type_)
      = (update_internal check_n_complete testCatalog 10 (mkTicket "approve_test" 0 "open")
          0 none 1).map (fun o => o.actions.map NewUserTicket.type_)) ∧
    ((old_update_internal oldTestCatalog 10 (mkTicket "initiate_test" 0 "open") 0 1).map
        (fun o => o.ticket.complete)
      = (update_internal check_n_complete testCatalog 10 (mkTicket "initiate_test" 0 "open")
          0 none 1).map (fun o => orI32 o.ticket.complete 2)) ∧
    ((old_update_internal oldTestCatalog 10 (mkTicket "approve_test" 1 "open") 1 1).map
        (fun o => o.ticket.complete)
      = (update_internal check_n_complete testCatalog 10 (mkTicket "approve_test" 1 "open")
          1 none 1).map (fun o => orI32 o.ticket.complete 4)) ∧
    ((old_update_internal oldTestCatalog 10 (mkTicket "approve_test" 0 "open") 0 1).map
        (fun o => o.ticket.complete)
      = (update_internal check_n_complete testCatalog 10 (mkTicket "approve_test" 0 "open")
          0 none 1).map (fun o => o.ticket.complete)) := by
  refine ⟨by decide, by decide, by decide, by decide, by decide, by decide⟩

/-- Claim C3, amended: once closed, an update answers Forbidden and never changes the
status; and any successful update leaves the status unchanged, or moves it to rejected
(denial) or closed (Completion emitted). Rejected tickets, however, are not guarded,
so rejected → closed remains reachable (see the counterexample). -/
theorem C3_amended (checkN : Int → Int → Bool) (catalog : String → Option Process)
    (fuel : Nat) (un ui : String → Option String) (ticket : Ticket) (uats : List Uat)
    (notifs : List Notification) (payload : UpdateTicketReq) (now : Nat) :
    (ticket.status = "closed" →
      update_ticket checkN catalog fuel un ui ticket uats notifs payload now
        = some (Except.error HStatus.Forbidden)) ∧
    (∀ db, update_ticket checkN catalog fuel un ui ticket uats notifs payload now
        = some (Except.ok db) →
      db.ticket.status = ticket.status ∨ db.ticket.status = "rejected" ∨
        db.ticket.status = "closed") := by
  constructor
  · intro hc
    unfold update_ticket
    rw [if_pos hc]
  · intro db h
    unfold update_ticket at h
    split at h
    · injection h with h; exact Except.noConfusion h
    · split at h
      · injection h with h; injection h with h; subst h
        exact Or.inr (Or.inl rfl)
      · split at h
        · exact Option.noConfusion h
        · rename_i out hout
          split at h
          · injection h with h; exact Except.noConfusion h
          · have h1 := process_actions_status un ui payload.ticket_id _ _ _ h
            have h2 := update_internal_status _ _ _ _ _ _ _ _ hout
            rw [merged_ticket_status] at h2
            rcases h1 with h1 | h1
            · exact Or.inl (h1.trans h2)
            · exact Or.inr (Or.inr h1)

/-- Claim C3, witness: a closed ticket is refused with Forbidden. -/
theorem C3_witness :
    update_ticket check_n_complete testCatalog 10 (fun _ => some "uid0")
        (fun _ => some "owner") (mkTicket "initiate_test" 1 "closed") [] []
        ⟨0, "user1", true, 0, none⟩ 2
      = some (Except.error HStatus.Forbidden) :=
  (C3_amended check_n_complete testCatalog 10 (fun _ => some "uid0")
    (fun _ => some "owner") (mkTicket "initiate_test" 1 "closed") [] []
    ⟨0, "user1", true, 0, none⟩ 2).1 rfl

/-- Claim C4, amended: a user trigger at a Notify, NonBlockingTask or Complete step is
rejected with InvalidTicket and the ticket (its mask included) is left untouched,
provided the step carries at least one arg (the rejection log line reads args[0], so a
step without args panics instead); and update_ticket maps every engine error, this
InvalidTicket included, to HTTP 500 — 403 arises only from the closed-ticket guard. -/
theorem C4_amended :
    (∀ (checkN : Int → Int → Bool) (catalog : String → Option Process) (p : Process)
        (t : Ticket) (node : Int) (data : Option (List (String × String))) (now : Nat)
        (job : Step) (u : String) (rest : List String),
      catalog t.process_id = some p →
      getStep p node = some job →
      (job.event = Event.Notify ∨ job.event = Event.NonBlockingTask ∨
        job.event = Event.Complete) →
      job.args = some (u :: rest) →
      execute_user_request checkN catalog t node data now
        = some ⟨t, user_dispatch job t.id node data,
                Except.error ExecuteErr.InvalidTicket⟩) ∧
    (∀ (checkN : Int → Int → Bool) (catalog : String → Option Process) (fuel : Nat)
        (un ui : String → Option String) (ticket : Ticket) (uats : List Uat)
        (notifs : List Notification) (payload : UpdateTicketReq) (now : Nat)
        (out : EngineOut) (e : ExecuteErr),
      ticket.status ≠ "closed" → payload.status = true →
      update_internal checkN catalog fuel (merged_ticket ticket payload.data)
          payload.node payload.data now = some out →
      out.err = some e →
      update_ticket checkN catalog fuel un ui ticket uats notifs payload now
        = some (Except.error HStatus.InternalServerError)) := by
  constructor
  · intro checkN catalog p t node data now job u rest h1 h2 h3 h4
    simp only [execute_user_request, h1, h2]
    rcases h3 with he | he | he <;> simp [user_event_step, he, h4]
  · intro checkN catalog fuel un ui ticket uats notifs payload now out e hc hs hint herr
    unfold update_ticket
    rw [if_neg hc, if_neg (by simp [hs])]
    simp [hint, herr]

/-- Claim C4, witness: the Notify step of notify_cb_test rejects a user trigger with
InvalidTicket and an unchanged ticket. -/
theorem C4_witness :
    execute_user_request check_n_complete testCatalog (mkTicket "notify_cb_test" 2 "open")
        1 none 4
      = some ⟨mkTicket "notify_cb_test" 2 "open",
              user_dispatch ⟨Event.Notify, [0], [], some ["erp_admin"], some ["cb0"]⟩ 0 1 none,
              Except.error ExecuteErr.InvalidTicket⟩ :=
  C4_amended.1 check_n_complete testCatalog notify_cb_test
    (mkTicket "notify_cb_test" 2 "open") 1 none 4
    ⟨Event.Notify, [0], [], some ["erp_admin"], some ["cb0"]⟩ "erp_admin" []
    (by decide) (by decide) (Or.inl rfl) rfl

/-- Claim C5, amended: for every update on a ticket that is not already closed, an
accepted = false payload sets the status to rejected, deactivates every row of the
ticket, changes neither mask nor state nor update time, inserts no rows and emits no
UserActions (a closed ticket is instead refused with Forbidden: see the
counterexample). -/
theorem C5_amended (checkN : Int → Int → Bool) (catalog : String → Option Process)
    (fuel : Nat) (un ui : String → Option String) (ticket : Ticket) (uats : List Uat)
    (notifs : List Notification) (payload : UpdateTicketReq) (now : Nat)
    (hc : ticket.status ≠ "closed") (hs : payload.status = false) :
    ∃ db : DbState,
      update_ticket checkN catalog fuel un ui ticket uats notifs payload now
        = some (Except.ok db) ∧
      db.ticket.status = "rejected" ∧
      db.ticket.complete = ticket.complete ∧
      db.ticket.updated_at = ticket.updated_at ∧
      db.ticket.state = ticket.state ∧
      db.uats.length = uats.length ∧
      (∀ r ∈ db.uats, r.ticketid = payload.ticket_id → r.active = false) ∧
      db.notifications = notifs := by
  have hmain : update_ticket checkN catalog fuel un ui ticket uats notifs payload now
      = some (Except.ok ⟨{ ticket with status := "rejected" },
          (uats.map (fun r =>
            if r.ticketid = payload.ticket_id ∧ r.userid = payload.user_id then
              { r with active := false } else r)).map
            (fun r => if r.ticketid = payload.ticket_id then { r with active := false }
              else r),
          notifs⟩) := by
    unfold update_ticket
    rw [if_neg hc, if_pos hs]
  refine ⟨_, hmain, rfl, rfl, rfl, rfl, by simp, ?_, rfl⟩
  intro r hr hrt
  simp only [List.mem_map] at hr
  obtain ⟨r1, _, rfl⟩ := hr
  by_cases h : r1.ticketid = payload.ticket_id
  · simp [h]
  · simp only [if_neg h] at hrt ⊢
    exact absurd hrt h

/-- Claim C5, witness: a rejection on an open approve_test ticket. -/
theorem C5_witness :
    ∃ db : DbState,
      update_ticket check_n_complete testCatalog 10 (fun _ => some "uid0")
          (fun _ => some "owner") (mkTicket "approve_test" 1 "open")
          [⟨"user2", 0, true, 1, "approve"⟩] [] ⟨0, "user2", false, 1, none⟩ 3
        = some (Except.ok db) ∧
      db.ticket.status = "rejected" ∧
      db.ticket.complete = (mkTicket "approve_test" 1 "open").complete ∧
      db.ticket.updated_at = (mkTicket "approve_test" 1 "open").updated_at ∧
      db.ticket.state = (mkTicket "approve_test" 1 "open").state ∧
      db.uats.length = [(⟨"user2", 0, true, 1, "approve"⟩ : Uat)].length ∧
      (∀ r ∈ db.uats, r.ticketid = (0 : Int) → r.active = false) ∧
      db.notifications = [] :=
  C5_amended check_n_complete testCatalog 10 (fun _ => some "uid0")
    (fun _ => some "owner") (mkTicket "approve_test" 1 "open")
    [⟨"user2", 0, true, 1, "approve"⟩] [] ⟨0, "user2", false, 1, none⟩ 3
    (by decide) rfl

/-- Claim C6, amended: whatever execute_user_request returns, the dispatched send_task
calls are exactly the step's configured callbacks via user_dispatch — computed before
the event branch and therefore spawned even when the branch rejects the request — and
a BlockingTask arrival dispatches nothing. -/
theorem C6_amended (checkN : Int → Int → Bool) (catalog : String → Option Process)
    (t : Ticket) (node : Int) (data : Option (List (String × String))) (now : Nat)
    (p : Process) (job : Step) (out : ExecOut)
    (h1 : catalog t.process_id = some p) (h2 : getStep p node = some job)
    (h3 : execute_user_request checkN catalog t node data now = some out) :
    out.dispatched = user_dispatch job t.id node data ∧
    (job.event = Event.BlockingTask → out.dispatched = []) := by
  have hd : out.dispatched = user_dispatch job t.id node data := by
    simp only [execute_user_request, h1, h2] at h3
    repeat' split at h3
    all_goals first
      | exact Option.noConfusion h3
      | (injection h3 with h3; subst h3; rfl)
  refine ⟨hd, fun hb => ?_⟩
  rw [hd]
  unfold user_dispatch Step.is_not_blocking_task
  simp [hb]

/-- Claim C6, witness: a BlockingTask arrival on blocking_test dispatches nothing. -/
theorem C6_witness :
    (⟨⟨0, "owner", "blocking_test", "log0", false, 0, 6, "open", 2, []⟩, [],
        Except.ok ⟨TicketStatus.Open, none, []⟩⟩ : ExecOut).dispatched
      = user_dispatch ⟨Event.BlockingTask, [0], [], none, some ["cbB"]⟩ 0 1 none ∧
    ((⟨Event.BlockingTask, [0], [], none, some ["cbB"]⟩ : Step).event = Event.BlockingTask →
      (⟨⟨0, "owner", "blocking_test", "log0", false, 0, 6, "open", 2, []⟩, [],
          Except.ok ⟨TicketStatus.Open, none, []⟩⟩ : ExecOut).dispatched = []) :=
  C6_amended check_n_complete testCatalog (mkTicket "blocking_test" 0 "open") 1 none 6
    blocking_test ⟨Event.BlockingTask, [0], [], none, some ["cbB"]⟩ _
    (by decide) (by decide) (by decide)

/-- Claim C7: an Approve node reached on the auto path leaves the ticket (mask and
update time included) unchanged, dispatches no callbacks, and emits exactly one
UserAction of kind ApproveRequest targeting args[0] of the step. -/
theorem C7_thm (checkN : Int → Int → Bool) (ticket : Ticket) (node : Int)
    (process : Process) (now : Nat) (job : Step) (u : String) (rest : List String)
    (l : List Int)
    (h1 : getStep process node = some job)
    (h2 : job.event = Event.Approve)
    (h3 : job.args = some (u :: rest))
    (h4 : completableOf checkN process ticket.complete job.next = some l) :
    execute_completable checkN ticket node process now
      = some ⟨ticket, [],
          Except.ok ⟨TicketStatus.Open,
            some ⟨NewUserTicketType.ApproveRequest, ticket.id, node, some u⟩, l⟩⟩ := by
  simp [execute_completable, h1, h2, h3, h4, Step.is_not_approve]

/-- Claim C7, witness: the Approve node of approve_test staged from mask 1. -/
theorem C7_witness :
    execute_completable check_n_complete (mkTicket "approve_test" 1 "open") 1
        approve_test 9
      = some ⟨mkTicket "approve_test" 1 "open", [],
          Except.ok ⟨TicketStatus.Open,
            some ⟨NewUserTicketType.ApproveRequest, 0, 1, some "erp_admin"⟩, []⟩⟩ :=
  C7_thm check_n_complete (mkTicket "approve_test" 1 "open") 1 approve_test 9
    ⟨Event.Approve, [0], [2], some ["erp_admin"], none⟩ "erp_admin" [] []
    (by decide) rfl rfl (by decide)

/-- Claim C8: the engine is deterministic in (ticket state, graph, trigger, instant):
two advancements on equal inputs return identical results — the same UserAction list
and equal final tickets in every field. -/
theorem C8_thm (checkN : Int → Int → Bool) (catalog : String → Option Process)
    (fuel : Nat) (t1 t2 : Ticket) (node : Int)
    (data : Option (List (String × String))) (now : Nat) (h : t1 = t2) :
    update_internal checkN catalog fuel t1 node data now
      = update_internal checkN catalog fuel t2 node data now ∧
    (update_internal checkN catalog fuel t1 node data now).map EngineOut.actions
      = (update_internal checkN catalog fuel t2 node data now).map EngineOut.actions ∧
    (update_internal checkN catalog fuel t1 node data now).map EngineOut.ticket
      = (update_internal checkN catalog fuel t2 node data now).map EngineOut.ticket := by
  subst h
  exact ⟨rfl, rfl, rfl⟩

/-- Claim C8, witness: instantiated on the approve_test approval advancement. -/
theorem C8_witness :
    update_internal check_n_complete testCatalog 10 (mkTicket "approve_test" 1 "open")
        1 none 5
      = update_internal check_n_complete testCatalog 10 (mkTicket "approve_test" 1 "open")
        1 none 5 ∧
    (update_internal check_n_complete testCatalog 10 (mkTicket "approve_test" 1 "open")
        1 none 5).map EngineOut.actions
      = (update_internal check_n_complete testCatalog 10 (mkTicket "approve_test" 1 "open")
        1 none 5).map EngineOut.actions ∧
    (update_internal check_n_complete testCatalog 10 (mkTicket "approve_test" 1 "open")
        1 none 5).map EngineOut.ticket
      = (update_internal check_n_complete testCatalog 10 (mkTicket "approve_test" 1 "open")
        1 none 5).map EngineOut.ticket :=
  C8_thm check_n_complete testCatalog 10 (mkTicket "approve_test" 1 "open")
    (mkTicket "approve_test" 1 "open") 1 none 5 rfl

/-- Claim C10: execute_user_request performs no validation of the caller-supplied node:
an index that is negative or at least |steps| panics at the step indexing (none, not an
engine error); at node 31 of a wide graph the bit lands in the i32 sign bit, turning
the mask negative; and at node 32 the shift amount itself overflows and panics. -/
theorem C10_thm :
    (∀ (checkN : Int → Int → Bool) (catalog : String → Option Process) (p : Process)
        (t : Ticket) (node : Int) (data : Option (List (String × String))) (now : Nat),
      catalog t.process_id = some p →
      (node < 0 ∨ (p.steps.length : Int) ≤ node) →
      execute_user_request checkN catalog t node data now = none) ∧
    ((execute_user_request check_n_complete testCatalog (mkTicket "wide_test" 0 "open")
        31 none 0).map (fun o => decide (o.ticket.complete < 0)) = some true) ∧
    (execute_user_request check_n_complete testCatalog (mkTicket "wide_test" 0 "open")
        32 none 0 = none) := by
  refine ⟨?_, by decide, by decide⟩
  intro checkN catalog p t node data now h1 h2
  have hstep : getStep p node = none := by
    unfold getStep
    rcases h2 with h2 | h2
    · rw [if_neg (by omega)]
    · rw [if_pos (by omega)]
      apply List.getElem?_eq_none
      omega
  simp [execute_user_request, h1, hstep]

/-- Claim C10, witness: node 5 on the two-step initiate_test graph panics. -/
theorem C10_witness :
    execute_user_request check_n_complete testCatalog (mkTicket "initiate_test" 0 "open")
        5 none 0 = none :=
  C10_thm.1 check_n_complete testCatalog initiate_test
    (mkTicket "initiate_test" 0 "open") 5 none 0 (by decide) (Or.inr (by decide))

end Erp
